import Mathlib

/-!
Verification of the python-coinpayments client library.

The development shallowly embeds the library's source
(`python_coinpayments/api.py`) in Lean 4:

* `utf8Bytes` / `strBytes` — UTF-8 encoding of strings to byte lists
  (`str.encode("utf-8")`);
* `sha512Bytes`, `hmacSha512`, `hmacHexdigest` — the SHA-512 hash and the
  HMAC construction used by `hmac.new(key, msg, hashlib.sha512).hexdigest()`;
* `urlencode` — Python's `urllib.parse.urlencode` restricted to the value
  shapes the library uses (strings and numbers), with `quote_plus`
  percent-encoding and insertion-order preservation;
* `calculate_hmac` — the module-level signing helper;
* `authenticate_ipn_request` — the IPN verification cascade;
* `CoinPayments` — the client class: `_package_params`, `create_hmac`,
  request construction and response handling of `request`, and the thin
  endpoint wrappers (`rates`, `create_transaction`, `get_callback_address`,
  and the rest), modelled as the parameter dictionaries they dispatch.

Python dictionaries are modelled as insertion-ordered association lists;
`dict.get` is first-match lookup and `dict.update` replaces the value of an
existing key in place or appends a new key at the end, exactly as CPython's
insertion-ordered dicts behave.
-/

namespace CoinPaymentsSpec

/-- A value of a Python parameter dictionary as the library uses them:
either a string or a (natural) number such as `version = 1`. -/
inductive Value where
  | str (s : String)
  | num (n : Nat)
deriving DecidableEq, Repr

/-- Python `str()` applied to a parameter value, as `urlencode` does before
percent-encoding. -/
def Value.toStr : Value → String
  | .str s => s
  | .num n => toString n

/-- UTF-8 encoding of a single character as a list of byte values. -/
def utf8Bytes (c : Char) : List Nat :=
  let n := c.toNat
  if n < 0x80 then [n]
  else if n < 0x800 then
    [0xC0 ||| (n >>> 6), 0x80 ||| (n &&& 0x3F)]
  else if n < 0x10000 then
    [0xE0 ||| (n >>> 12), 0x80 ||| ((n >>> 6) &&& 0x3F), 0x80 ||| (n &&& 0x3F)]
  else
    [0xF0 ||| (n >>> 18), 0x80 ||| ((n >>> 12) &&& 0x3F),
     0x80 ||| ((n >>> 6) &&& 0x3F), 0x80 ||| (n &&& 0x3F)]

/-- UTF-8 encoding of a string (`s.encode("utf-8")`) as a list of bytes. -/
def strBytes (s : String) : List Nat :=
  s.data.foldr (fun c acc => utf8Bytes c ++ acc) []

/-! ### SHA-512 -/

/-- 2^64, the modulus of the 64-bit words SHA-512 computes with. -/
def M64 : Nat := 18446744073709551616

/-- 2^64 - 1, the all-ones 64-bit mask. -/
def mask64 : Nat := 18446744073709551615

/-- Addition modulo 2^64. -/
def add64 (a b : Nat) : Nat := (a + b) % M64

/-- Right rotation of a 64-bit word by `n` places. -/
def rotr64 (n x : Nat) : Nat := ((x >>> n) ||| (x <<< (64 - n))) &&& mask64

/-- The SHA-512 Ch function. -/
def shaCh (x y z : Nat) : Nat := (x &&& y) ^^^ ((x ^^^ mask64) &&& z)

/-- The SHA-512 Maj function. -/
def shaMaj (x y z : Nat) : Nat := (x &&& y) ^^^ (x &&& z) ^^^ (y &&& z)

/-- The SHA-512 big Sigma-0 function. -/
def bSig0 (x : Nat) : Nat := rotr64 28 x ^^^ rotr64 34 x ^^^ rotr64 39 x

/-- The SHA-512 big Sigma-1 function. -/
def bSig1 (x : Nat) : Nat := rotr64 14 x ^^^ rotr64 18 x ^^^ rotr64 41 x

/-- The SHA-512 small sigma-0 function. -/
def sSig0 (x : Nat) : Nat := rotr64 1 x ^^^ rotr64 8 x ^^^ (x >>> 7)

/-- The SHA-512 small sigma-1 function. -/
def sSig1 (x : Nat) : Nat := rotr64 19 x ^^^ rotr64 61 x ^^^ (x >>> 6)

/-- The eight SHA-512 initial hash words (FIPS 180-4 §5.3.5, here as
decimal literals). -/
def sha512H0 : List Nat :=
  [7640891576956012808, 13503953896175478587, 4354685564936845355,
   11912009170470909681, 5840696475078001361, 11170449401992604703,
   2270897969802886507, 6620516959819538809]

/-- The eighty SHA-512 round constants (FIPS 180-4 §4.2.3, here as decimal
literals). -/
def sha512K : List Nat :=
  [4794697086780616226, 8158064640168781261, 13096744586834688815,
   16840607885511220156, 4131703408338449720, 6480981068601479193,
   10538285296894168987, 12329834152419229976, 15566598209576043074,
   1334009975649890238, 2608012711638119052, 6128411473006802146,
   8268148722764581231, 9286055187155687089, 11230858885718282805,
   13951009754708518548, 16472876342353939154, 17275323862435702243,
   1135362057144423861, 2597628984639134821, 3308224258029322869,
   5365058923640841347, 6679025012923562964, 8573033837759648693,
   10970295158949994411, 12119686244451234320, 12683024718118986047,
   13788192230050041572, 14330467153632333762, 15395433587784984357,
   489312712824947311, 1452737877330783856, 2861767655752347644,
   3322285676063803686, 5560940570517711597, 5996557281743188959,
   7280758554555802590, 8532644243296465576, 9350256976987008742,
   10552545826968843579, 11727347734174303076, 12113106623233404929,
   14000437183269869457, 14369950271660146224, 15101387698204529176,
   15463397548674623760, 17586052441742319658, 1182934255886127544,
   1847814050463011016, 2177327727835720531, 2830643537854262169,
   3796741975233480872, 4115178125766777443, 5681478168544905931,
   6601373596472566643, 7507060721942968483, 8399075790359081724,
   8693463985226723168, 9568029438360202098, 10144078919501101548,
   10430055236837252648, 11840083180663258601, 13761210420658862357,
   14299343276471374635, 14566680578165727644, 15097957966210449927,
   16922976911328602910, 17689382322260857208, 500013540394364858,
   748580250866718886, 1242879168328830382, 1977374033974150939,
   2944078676154940804, 3659926193048069267, 4368137639120453308,
   4836135668995329356, 5532061633213252278, 6448918945643986474,
   6902733635092675308, 7801388544844847127]

/-- Big-endian interpretation of a list of bytes as one number. -/
def bytesToWord (bs : List Nat) : Nat := bs.foldl (fun acc b => acc * 256 + b) 0

/-- The big-endian bytes of a 64-bit word, most significant first. -/
def wordToBytes (w : Nat) : List Nat :=
  [(w >>> 56) &&& 255, (w >>> 48) &&& 255, (w >>> 40) &&& 255,
   (w >>> 32) &&& 255, (w >>> 24) &&& 255, (w >>> 16) &&& 255,
   (w >>> 8) &&& 255, w &&& 255]

/-- Splits a list into consecutive chunks of `n` elements, driven by a fuel
argument for structural termination. -/
def chunksGo (n : Nat) : Nat → List α → List (List α)
  | 0, _ => []
  | _ + 1, [] => []
  | fuel + 1, x :: xs => (x :: xs).take n :: chunksGo n fuel ((x :: xs).drop n)

/-- Splits a list into consecutive chunks of `n` elements. -/
def chunks (n : Nat) (l : List α) : List (List α) := chunksGo n l.length l

/-- Extends the sixteen message words of one block to the eighty scheduled
words of SHA-512. -/
def sha512Schedule (block : List Nat) : Array Nat :=
  (List.range 64).foldl
    (fun w i =>
      let t := i + 16
      w.push (add64
        (add64 (sSig1 (w.getD (t - 2) 0)) (w.getD (t - 7) 0))
        (add64 (sSig0 (w.getD (t - 15) 0)) (w.getD (t - 16) 0))))
    block.toArray

/-- One SHA-512 round: updates the eight working words with a round
constant `k` and a scheduled message word `w`. -/
def sha512Round (st : List Nat) (k w : Nat) : List Nat :=
  match st with
  | [a, b, c, d, e, f, g, h] =>
    let t1 := add64 h (add64 (bSig1 e) (add64 (shaCh e f g) (add64 k w)))
    let t2 := add64 (bSig0 a) (shaMaj a b c)
    [add64 t1 t2, a, b, c, add64 d t1, e, f, g]
  | other => other

/-- The SHA-512 compression function on one 16-word block. -/
def sha512Compress (h : List Nat) (block : List Nat) : List Nat :=
  let w := sha512Schedule block
  let st := (sha512K.zip w.toList).foldl (fun s kw => sha512Round s kw.1 kw.2) h
  (h.zip st).map (fun p => add64 p.1 p.2)

/-- SHA-512 padding: appends the 0x80 byte, zero bytes, and the 16-byte
big-endian bit length, reaching a multiple of 128 bytes. -/
def sha512Pad (msg : List Nat) : List Nat :=
  let len := msg.length
  let rem := (len + 17) % 128
  let zeros := if rem == 0 then 0 else 128 - rem
  let bits := 8 * len
  msg ++ [0x80] ++ List.replicate zeros 0 ++
    (List.range 16).map (fun i => (bits >>> (8 * (15 - i))) &&& 255)

/-- SHA-512 of a byte list, returning the 64 digest bytes. -/
def sha512Bytes (msg : List Nat) : List Nat :=
  let blocks := chunks 16 ((chunks 8 (sha512Pad msg)).map bytesToWord)
  (blocks.foldl sha512Compress sha512H0).foldr (fun w acc => wordToBytes w ++ acc) []

/-- The lowercase hexadecimal digit for `n < 16`. -/
def hexLower (n : Nat) : Char := if n < 10 then Char.ofNat (48 + n) else Char.ofNat (87 + n)

/-- Renders a byte list as a lowercase hexadecimal string, two digits per
byte (`.hexdigest()`). -/
def hexStr (bs : List Nat) : String :=
  ⟨bs.foldr (fun b acc => hexLower (b / 16) :: hexLower (b % 16) :: acc) []⟩

/-- HMAC-SHA512 (`hmac.new(key, msg, hashlib.sha512)`): digest bytes. -/
def hmacSha512 (key msg : List Nat) : List Nat :=
  let k0 := if 128 < key.length then sha512Bytes key else key
  let k1 := k0 ++ List.replicate (128 - k0.length) 0
  let ipad := k1.map (fun b => b ^^^ 0x36)
  let opad := k1.map (fun b => b ^^^ 0x5c)
  sha512Bytes (opad ++ sha512Bytes (ipad ++ msg))

/-- HMAC-SHA512 rendered as the 128-character lowercase hex string returned
by `.hexdigest()`. -/
def hmacHexdigest (key msg : List Nat) : String := hexStr (hmacSha512 key msg)

/-! ### `urllib.parse.urlencode` -/

/-- Whether a byte is left unencoded by `urllib.parse.quote` with an empty
`safe` set: ASCII letters, digits, and the characters `_ . - ~`. -/
def isSafeByte (b : Nat) : Bool :=
  (65 ≤ b && b ≤ 90) || (97 ≤ b && b ≤ 122) || (48 ≤ b && b ≤ 57) ||
  b == 95 || b == 46 || b == 45 || b == 126

/-- The uppercase hexadecimal digit for `n < 16`, as percent-escapes use. -/
def hexUpper (n : Nat) : Char := if n < 10 then Char.ofNat (48 + n) else Char.ofNat (55 + n)

/-- `quote_plus` on a single byte: space becomes `+`, safe bytes pass
through, every other byte becomes an uppercase percent-escape. -/
def quotePlusByte (b : Nat) : List Char :=
  if b == 32 then ['+']
  else if isSafeByte b then [Char.ofNat b]
  else ['%', hexUpper (b / 16), hexUpper (b % 16)]

/-- `urllib.parse.quote_plus` with empty `safe`, as `urlencode` applies it
to each key and stringified value. -/
def quotePlus (s : String) : String :=
  ⟨(strBytes s).foldr (fun b acc => quotePlusByte b ++ acc) []⟩

/-- `urllib.parse.urlencode` on an insertion-ordered parameter dictionary:
`quote_plus(str(k)) + "=" + quote_plus(str(v))` pairs joined by `&`, in
insertion order. -/
def urlencode (params : List (String × Value)) : String :=
  String.intercalate "&"
    (params.map (fun p => quotePlus p.1 ++ "=" ++ quotePlus p.2.toStr))

/-! ### The library's signing helper -/

/-- `calculate_hmac(secret, **params)` from `api.py`: HMAC-SHA512 of the
UTF-8 form-encoding of `params`, keyed by the UTF-8 bytes of `secret`,
rendered as a lowercase hex digest. -/
def calculate_hmac (secret : String) (params : List (String × Value)) : String :=
  hmacHexdigest (strBytes secret) (strBytes (urlencode params))

/-! ### The IPN verifier -/

/-- `dict.get` on an insertion-ordered dictionary: the value of the first
(and, in a genuine dict, only) entry with the given key. -/
def dictGet (d : List (String × α)) (k : String) : Option α :=
  (d.find? (fun p => p.1 == k)).map (fun p => p.2)

/-- `authenticate_ipn_request(secret, merchant_id, http_headers, http_post,
ipn_mode)` from `api.py`: the six-check validation cascade returning an
accepted flag and an optional reason. -/
def authenticate_ipn_request (secret merchant_id : String)
    (http_headers : List (String × String)) (http_post : List (String × Value))
    (ipn_mode : String := "hmac") : Bool × Option String :=
  let received_ipn_mode := dictGet http_post "ipn_mode"
  let merchant := dictGet http_post "merchant"
  let http_hmac := dictGet http_headers "HTTP_HMAC"
  let hashed := calculate_hmac secret http_post
  if merchant = none then (false, some "No merchant ID")
  else if merchant ≠ some (Value.str merchant_id) then (false, some "Invalid merchant ID")
  else if received_ipn_mode = none then (false, some "No ipn_mode")
  else if received_ipn_mode ≠ some (Value.str ipn_mode) then (false, some "Invalid ipn_mode")
  else if http_hmac = none then (false, some "No HTTP HMAC")
  else if http_hmac ≠ some hashed then (false, some "Invalid HTTP HMAC")
  else (true, none)

/-! ### The `CoinPayments` client -/

/-- `dict.update` with a single key: if the key is already present its value
is replaced in place (its position kept), otherwise the pair is appended at
the end, as in CPython's insertion-ordered dicts. -/
def dictSet (d : List (String × α)) (k : String) (v : α) : List (String × α) :=
  if d.any (fun p => p.1 == k) then
    d.map (fun p => if p.1 == k then (k, v) else p)
  else d ++ [(k, v)]

/-- The state of a `CoinPayments` instance after `__init__`. -/
structure CoinPayments where
  url : String
  public_key : String
  private_key : String
  ipn_url : String
  format : String
  version : Nat
deriving DecidableEq, Repr

/-- `CoinPayments.__init__(public_key, private_key, ipn_url)`: fixes the
endpoint URL, the response format `"json"` and the API version `1`. -/
def CoinPayments.init (public_key private_key ipn_url : String) : CoinPayments :=
  { url := "https://www.coinpayments.net/api.php"
    public_key := public_key
    private_key := private_key
    ipn_url := ipn_url
    format := "json"
    version := 1 }

/-- `CoinPayments._package_params(params)`: merges `key`, `version` and
`format` into the caller's dictionary via `dict.update`. -/
def CoinPayments.package_params (c : CoinPayments)
    (params : List (String × Value)) : List (String × Value) :=
  dictSet (dictSet (dictSet params
    "key" (Value.str c.public_key))
    "version" (Value.num c.version))
    "format" (Value.str c.format)

/-- `CoinPayments.create_hmac(**params)`: the encoded parameter bytes and
the HMAC signature over exactly those bytes, keyed by the private key. -/
def CoinPayments.create_hmac (c : CoinPayments)
    (params : List (String × Value)) : List Nat × String :=
  (strBytes (urlencode params), calculate_hmac c.private_key params)

/-- An outbound `urllib.request.Request` as `CoinPayments.request` builds
it: target URL, optional body bytes, and headers. -/
structure HttpRequest where
  url : String
  data : Option (List Nat)
  headers : List (String × String)
deriving DecidableEq, Repr

/-- The request-construction half of `CoinPayments.request`: for `"get"` a
body-less request with the `Hmac` header, for `"post"` a request whose body
is the encoded bytes with the `Hmac` and `Content-type` headers; for any
other method string no request object is ever bound, so the later
`urlopen(req)` line raises `UnboundLocalError` before any network I/O —
modelled as `none`. -/
def CoinPayments.buildRequest (c : CoinPayments) (request_method : String)
    (params : List (String × Value)) : Option HttpRequest :=
  let es := c.create_hmac params
  let headers := [("Hmac", es.2)]
  if request_method == "get" then
    some { url := c.url, data := none, headers := headers }
  else if request_method == "post" then
    some { url := c.url, data := some es.1
           headers := dictSet headers "Content-type" "application/x-www-form-urlencoded" }
  else none

/-- The outcome of the single `urllib.request.urlopen(req)` call: a normal
response with a readable body, an `HTTPError` exception that still carries
a readable body (any non-2xx status), or a transport-level failure
(connection, DNS, ...) from which no body can be obtained. -/
inductive UrlopenOutcome where
  | ok (body : String)
  | httpError (body : String)
  | fatal (err : String)
deriving DecidableEq, Repr

/-- The response half of `CoinPayments.request`: a normal response and an
`HTTPError` both have their body read and handed to `json.loads`; a
transport failure propagates to the caller. `loads` stands for
`json.loads`. -/
def handleOutcome (loads : String → α) : UrlopenOutcome → Except String α
  | .ok body => .ok (loads body)
  | .httpError body => .ok (loads body)
  | .fatal err => .error err

/-- `CoinPayments.request(request_method, **params)` end to end, with the
transport abstracted as a function from the built request to the outcome of
the one `urlopen` call, and `json.loads` abstracted as `loads`. Returns
`none` when the method string binds no request object (the
`UnboundLocalError` path), in which case `transport` is never consulted. -/
def CoinPayments.request (c : CoinPayments) (loads : String → α)
    (transport : HttpRequest → UrlopenOutcome) (request_method : String)
    (params : List (String × Value)) : Option (Except String α) :=
  (c.buildRequest request_method params).map (fun req => handleOutcome loads (transport req))

/-! ### The endpoint wrappers, as the parameter dictionaries they dispatch -/

/-- `CoinPayments.create_transaction(params)`: packaged params, plus
`ipn_url` when one was configured (non-empty), plus `cmd`. -/
def CoinPayments.create_transaction_params (c : CoinPayments)
    (params : List (String × Value)) : List (String × Value) :=
  dictSet
    (if c.ipn_url ≠ "" then
      dictSet (c.package_params params) "ipn_url" (Value.str c.ipn_url)
    else c.package_params params)
    "cmd" (Value.str "create_transaction")

/-- `CoinPayments.get_callback_address(params)`: packaged params, plus
`ipn_url` when one was configured (non-empty), plus `cmd`. -/
def CoinPayments.get_callback_address_params (c : CoinPayments)
    (params : List (String × Value)) : List (String × Value) :=
  dictSet
    (if c.ipn_url ≠ "" then
      dictSet (c.package_params params) "ipn_url" (Value.str c.ipn_url)
    else c.package_params params)
    "cmd" (Value.str "get_callback_address")

/-- The shared shape of every other endpoint wrapper: packaged params plus
`cmd` set to the fixed operation name; none of them touches `ipn_url`. -/
def CoinPayments.plain_op_params (c : CoinPayments) (cmd : String)
    (params : List (String × Value)) : List (String × Value) :=
  dictSet (c.package_params params) "cmd" (Value.str cmd)

/-- `CoinPayments.get_basic_info(params)`. -/
def CoinPayments.get_basic_info_params (c : CoinPayments)
    (params : List (String × Value)) : List (String × Value) :=
  c.plain_op_params "get_basic_info" params

/-- `CoinPayments.rates(params)`. -/
def CoinPayments.rates_params (c : CoinPayments)
    (params : List (String × Value)) : List (String × Value) :=
  c.plain_op_params "rates" params

/-- `CoinPayments.balances(params)`. -/
def CoinPayments.balances_params (c : CoinPayments)
    (params : List (String × Value)) : List (String × Value) :=
  c.plain_op_params "balances" params

/-- `CoinPayments.get_deposit_address(params)`. -/
def CoinPayments.get_deposit_address_params (c : CoinPayments)
    (params : List (String × Value)) : List (String × Value) :=
  c.plain_op_params "get_deposit_address" params

/-- `CoinPayments.create_transfer(params)`. -/
def CoinPayments.create_transfer_params (c : CoinPayments)
    (params : List (String × Value)) : List (String × Value) :=
  c.plain_op_params "create_transfer" params

/-- `CoinPayments.create_withdrawal(params)`. -/
def CoinPayments.create_withdrawal_params (c : CoinPayments)
    (params : List (String × Value)) : List (String × Value) :=
  c.plain_op_params "create_withdrawal" params

/-- `CoinPayments.convert_coins(params)`. -/
def CoinPayments.convert_coins_params (c : CoinPayments)
    (params : List (String × Value)) : List (String × Value) :=
  c.plain_op_params "convert" params

/-- `CoinPayments.get_conversion_limits(params)`. -/
def CoinPayments.get_conversion_limits_params (c : CoinPayments)
    (params : List (String × Value)) : List (String × Value) :=
  c.plain_op_params "convert_limits" params

/-- `CoinPayments.get_withdrawal_history(params)`. -/
def CoinPayments.get_withdrawal_history_params (c : CoinPayments)
    (params : List (String × Value)) : List (String × Value) :=
  c.plain_op_params "get_withdrawal_history" params

/-- `CoinPayments.get_withdrawal_info(params)`. -/
def CoinPayments.get_withdrawal_info_params (c : CoinPayments)
    (params : List (String × Value)) : List (String × Value) :=
  c.plain_op_params "get_withdrawal_info" params

/-- `CoinPayments.get_conversion_info(params)`. -/
def CoinPayments.get_conversion_info_params (c : CoinPayments)
    (params : List (String × Value)) : List (String × Value) :=
  c.plain_op_params "get_conversion_info" params

/-- `CoinPayments.get_tx_info(params)`. -/
def CoinPayments.get_tx_info_params (c : CoinPayments)
    (params : List (String × Value)) : List (String × Value) :=
  c.plain_op_params "get_tx_info" params

/-- `CoinPayments.get_tx_info_multi(params)`. -/
def CoinPayments.get_tx_info_multi_params (c : CoinPayments)
    (params : List (String × Value)) : List (String × Value) :=
  c.plain_op_params "get_tx_info_multi" params

/-- `CoinPayments.get_tx_list(params)`. -/
def CoinPayments.get_tx_list_params (c : CoinPayments)
    (params : List (String × Value)) : List (String × Value) :=
  c.plain_op_params "get_tx_ids" params

/-- Modelled from the spec's numbered validation steps in §4.3: the
seven-step first-failure cascade, written as nested matches in the spec's
order. Used to compare the source's `authenticate_ipn_request` against the
spec's wording. -/
def authenticateIpnSpec (secret merchant_id : String)
    (http_headers : List (String × String)) (http_post : List (String × Value))
    (ipn_mode : String) : Bool × Option String :=
  match dictGet http_post "merchant" with
  | none => (false, some "No merchant ID")
  | some m =>
    if m ≠ Value.str merchant_id then (false, some "Invalid merchant ID")
    else
      match dictGet http_post "ipn_mode" with
      | none => (false, some "No ipn_mode")
      | some md =>
        if md ≠ Value.str ipn_mode then (false, some "Invalid ipn_mode")
        else
          match dictGet http_headers "HTTP_HMAC" with
          | none => (false, some "No HTTP HMAC")
          | some sig =>
            if sig ≠ calculate_hmac secret http_post then (false, some "Invalid HTTP HMAC")
            else (true, none)

/-! ### Helper lemmas about ordered-dictionary update and lookup -/

/-- Lookup on the empty dictionary finds nothing. -/
theorem dictGet_nil (k : String) : dictGet ([] : List (String × α)) k = none := rfl

/-- Unfolding of lookup on a non-empty dictionary. -/
theorem dictGet_cons (p : String × α) (ps : List (String × α)) (k : String) :
    dictGet (p :: ps) k = if p.1 == k then some p.2 else dictGet ps k := by
  cases h : p.1 == k <;> simp [dictGet, List.find?_cons, h]

/-- A dictionary none of whose keys is `k` looks up `k` to nothing. -/
theorem dictGet_eq_none_of_any_eq_false (d : List (String × α)) (k : String)
    (h : d.any (fun p => p.1 == k) = false) : dictGet d k = none := by
  induction d with
  | nil => rfl
  | cons p ps ih =>
    simp only [List.any_cons, Bool.or_eq_false_iff] at h
    rw [dictGet_cons, if_neg (by simp [h.1])]
    exact ih h.2

/-- Lookup after appending a single pair at the end. -/
theorem dictGet_append_single (d : List (String × α)) (k k' : String) (v : α) :
    dictGet (d ++ [(k, v)]) k' =
      (dictGet d k').or (if k == k' then some v else none) := by
  induction d with
  | nil => simp [dictGet_cons, dictGet_nil]
  | cons p ps ih =>
    rw [List.cons_append, dictGet_cons, dictGet_cons]
    by_cases hp : (p.1 == k') = true
    · simp [hp]
    · simp [hp, ih]

/-- Value replacement at key `k` does not change the lookup of `k' ≠ k`. -/
theorem dictGet_replace_ne (d : List (String × α)) (k k' : String) (v : α)
    (hne : k' ≠ k) :
    dictGet (d.map (fun p => if p.1 == k then (k, v) else p)) k' = dictGet d k' := by
  induction d with
  | nil => rfl
  | cons p ps ih =>
    rw [List.map_cons, dictGet_cons, dictGet_cons]
    by_cases hp : (p.1 == k) = true
    · have hpk : p.1 = k := by simpa using hp
      have h1 : ((k, v).1 == k') = false := by
        simp only [beq_eq_false_iff_ne, ne_eq]
        exact fun hkk => hne hkk.symm
      have h2 : (p.1 == k') = false := by
        simp only [beq_eq_false_iff_ne, ne_eq, hpk]
        exact fun hkk => hne hkk.symm
      rw [if_pos hp, h1, h2]
      simpa using ih
    · rw [if_neg hp]
      by_cases hq : (p.1 == k') = true
      · simp [hq]
      · simp only [hq, if_false, Bool.false_eq_true]
        simpa using ih

/-- Value replacement at a key present in the dictionary makes the lookup
of that key yield the new value. -/
theorem dictGet_replace_self (d : List (String × α)) (k : String) (v : α)
    (h : d.any (fun p => p.1 == k) = true) :
    dictGet (d.map (fun p => if p.1 == k then (k, v) else p)) k = some v := by
  induction d with
  | nil => simp at h
  | cons p ps ih =>
    rw [List.map_cons, dictGet_cons]
    by_cases hp : (p.1 == k) = true
    · simp [hp]
    · rw [if_neg hp, if_neg (by simpa using hp)]
      apply ih
      simp only [List.any_cons, Bool.or_eq_true] at h
      rcases h with h | h
      · exact absurd h hp
      · exact h

/-- Looking up the key just set by `dict.update` yields the new value. -/
theorem dictGet_dictSet_self (d : List (String × α)) (k : String) (v : α) :
    dictGet (dictSet d k v) k = some v := by
  unfold dictSet
  by_cases h : d.any (fun p => p.1 == k) = true
  · rw [if_pos h]
    exact dictGet_replace_self d k v h
  · rw [if_neg h, dictGet_append_single,
        dictGet_eq_none_of_any_eq_false d k (Bool.eq_false_iff.mpr h)]
    simp

/-- `dict.update` of one key leaves the lookup of every other key
unchanged. -/
theorem dictGet_dictSet_ne (d : List (String × α)) (k k' : String) (v : α)
    (hne : k' ≠ k) : dictGet (dictSet d k v) k' = dictGet d k' := by
  unfold dictSet
  by_cases h : d.any (fun p => p.1 == k) = true
  · rw [if_pos h]
    exact dictGet_replace_ne d k k' v hne
  · rw [if_neg h, dictGet_append_single,
        if_neg (by simp only [beq_iff_eq]; exact fun hk => hne hk.symm)]
    simp

/-- Lookup of `ipn_url` passes through `_package_params` untouched: the
injected keys are `key`, `version` and `format` only. -/
theorem dictGet_package_ipn_url (c : CoinPayments) (params : List (String × Value)) :
    dictGet (c.package_params params) "ipn_url" = dictGet params "ipn_url" := by
  unfold CoinPayments.package_params
  rw [dictGet_dictSet_ne _ _ _ _ (by decide),
      dictGet_dictSet_ne _ _ _ _ (by decide),
      dictGet_dictSet_ne _ _ _ _ (by decide)]

/-- Lookup of `ipn_url` passes through every plain endpoint wrapper whose
command name is not itself `ipn_url`. -/
theorem dictGet_plain_op_ipn_url (c : CoinPayments) (cmd : String)
    (params : List (String × Value)) :
    dictGet (c.plain_op_params cmd params) "ipn_url" = dictGet params "ipn_url" := by
  unfold CoinPayments.plain_op_params
  rw [dictGet_dictSet_ne _ _ _ _ (by decide), dictGet_package_ipn_url]

/-! ### The claims -/

/-- Claim C1: for every secret, expected merchant id, header mapping and
body-field mapping, `authenticate_ipn_request` is exactly the six-check
first-failure cascade of the spec's §4.3 — merchant present, merchant
equals expected, ipn_mode present, ipn_mode equals expected mode,
`HTTP_HMAC` header present, header equals the recomputed signature — with
exactly the reason strings "No merchant ID", "Invalid merchant ID",
"No ipn_mode", "Invalid ipn_mode", "No HTTP HMAC", "Invalid HTTP HMAC";
no later check influences the result once one fails, since each failing
branch of the cascade is reached with the later inputs universally
quantified. -/
theorem C1_ipn_first_failure_cascade (secret merchant_id : String)
    (http_headers : List (String × String)) (http_post : List (String × Value))
    (ipn_mode : String) :
    authenticate_ipn_request secret merchant_id http_headers http_post ipn_mode =
      authenticateIpnSpec secret merchant_id http_headers http_post ipn_mode := by
  unfold authenticate_ipn_request authenticateIpnSpec
  cases hm : dictGet http_post "merchant" <;>
    cases hi : dictGet http_post "ipn_mode" <;>
      cases hh : dictGet http_headers "HTTP_HMAC" <;>
        simp [hm, hi, hh]

/-- Claim C2: whenever the body fields carry the expected merchant id and
the expected mode, and the `HTTP_HMAC` header equals the signature
recomputed over the entire body-field mapping (the `calculate_hmac` of the
whole of `http_post`, the `merchant` and `ipn_mode` fields included), the
verifier accepts with no reason. -/
theorem C2_ipn_accept (secret merchant_id ipn_mode : String)
    (http_headers : List (String × String)) (http_post : List (String × Value))
    (hm : dictGet http_post "merchant" = some (Value.str merchant_id))
    (hi : dictGet http_post "ipn_mode" = some (Value.str ipn_mode))
    (hh : dictGet http_headers "HTTP_HMAC" = some (calculate_hmac secret http_post)) :
    authenticate_ipn_request secret merchant_id http_headers http_post ipn_mode =
      (true, none) := by
  unfold authenticate_ipn_request
  simp [hm, hi, hh]

/-- Witness for C2: a concrete valid field set whose header carries the
signature of the whole body is accepted. -/
theorem C2_ipn_accept_witness :
    authenticate_ipn_request "s" "m"
      [("HTTP_HMAC",
        calculate_hmac "s" [("merchant", Value.str "m"), ("ipn_mode", Value.str "hmac")])]
      [("merchant", Value.str "m"), ("ipn_mode", Value.str "hmac")] "hmac" =
      (true, none) :=
  C2_ipn_accept "s" "m" "hmac" _ _ rfl rfl rfl

/-- Claim C3: for every parameter set, the POST request is built for the
fixed endpoint URL, its body is exactly the UTF-8 bytes of the canonical
form-encoding of the parameters, its `Content-type` header is
`application/x-www-form-urlencoded`, and its `Hmac` header is the
HMAC-SHA512 digest, keyed by the client's private secret, of the very same
bytes that form the body. -/
theorem C3_post_request_shape (public_key private_key ipn_url : String)
    (params : List (String × Value)) :
    (CoinPayments.init public_key private_key ipn_url).buildRequest "post" params =
      some { url := "https://www.coinpayments.net/api.php"
             data := some (strBytes (urlencode params))
             headers :=
               [("Hmac", hmacHexdigest (strBytes private_key) (strBytes (urlencode params))),
                ("Content-type", "application/x-www-form-urlencoded")] } := rfl

set_option maxRecDepth 1000000 in
/-- Claim C4: the known signing vector — `calculate_hmac` of the parameter
set `{"foo": "bar"}` under the secret `"i love oov"` is the stated
128-character lowercase hex digest. -/
theorem C4_known_vector :
    calculate_hmac "i love oov" [("foo", Value.str "bar")] =
      "a2367a3768a4e7e46bf4c47f54c1781c758d5441d5573caf86f3ac9b71b5125f3eb36cf63d8dc790cec1a63554e9a70ae69b3d802879cbc8fe85b3b7f876f1d7" ∧
    ("a2367a3768a4e7e46bf4c47f54c1781c758d5441d5573caf86f3ac9b71b5125f3eb36cf63d8dc790cec1a63554e9a70ae69b3d802879cbc8fe85b3b7f876f1d7" : String).length = 128 := by
  exact ⟨by decide, by decide⟩

/-- Claim C5: the canonical encoding of
`{"foo": "bar", "key": "public key", "version": 1, "format": "json"}`, in
that insertion order, is exactly `foo=bar&key=public+key&version=1&format=json`:
pairs joined by `&` in insertion order, space encoded as `+`, and the
number `1` rendered as the digit `1`. -/
theorem C5_encoding_vector :
    urlencode [("foo", Value.str "bar"), ("key", Value.str "public key"),
               ("version", Value.num 1), ("format", Value.str "json")] =
      "foo=bar&key=public+key&version=1&format=json" ∧
    strBytes (urlencode [("foo", Value.str "bar"), ("key", Value.str "public key"),
                         ("version", Value.num 1), ("format", Value.str "json")]) =
      strBytes "foo=bar&key=public+key&version=1&format=json" := by
  exact ⟨by decide, by decide⟩

set_option maxRecDepth 1000000 in
/-- Claim C6: insertion order is significant — the two-field parameter sets
`{"a": "1", "b": "2"}` and `{"b": "2", "a": "1"}` hold the same key-value
pairs (they are permutations of each other) yet their canonical encodings
differ, and consequently their signatures under the same secret differ. -/
theorem C6_order_sensitivity :
    List.Perm [("a", Value.str "1"), ("b", Value.str "2")]
      [("b", Value.str "2"), ("a", Value.str "1")] ∧
    urlencode [("a", Value.str "1"), ("b", Value.str "2")] ≠
      urlencode [("b", Value.str "2"), ("a", Value.str "1")] ∧
    calculate_hmac "secret" [("a", Value.str "1"), ("b", Value.str "2")] ≠
      calculate_hmac "secret" [("b", Value.str "2"), ("a", Value.str "1")] := by
  exact ⟨by decide, by decide, by decide⟩

/-- Claim C7: invoking an operation (`rates` as the representative) merges
`key`, `version` and `format` into the caller's parameters, applying the
injected entries last so a caller-supplied entry of the same name is
overridden by the client-injected value; every other caller-supplied entry
is left present and unchanged, and `cmd` is set to the fixed operation
name before dispatch. -/
theorem C7_param_merging (c : CoinPayments) (params : List (String × Value)) :
    dictGet (c.rates_params params) "key" = some (Value.str c.public_key) ∧
    dictGet (c.rates_params params) "version" = some (Value.num c.version) ∧
    dictGet (c.rates_params params) "format" = some (Value.str c.format) ∧
    dictGet (c.rates_params params) "cmd" = some (Value.str "rates") ∧
    ∀ k : String, k ≠ "key" → k ≠ "version" → k ≠ "format" → k ≠ "cmd" →
      dictGet (c.rates_params params) k = dictGet params k := by
  unfold CoinPayments.rates_params CoinPayments.plain_op_params CoinPayments.package_params
  refine ⟨?_, ?_, ?_, ?_, ?_⟩
  · rw [dictGet_dictSet_ne _ _ _ _ (by decide), dictGet_dictSet_ne _ _ _ _ (by decide),
        dictGet_dictSet_ne _ _ _ _ (by decide), dictGet_dictSet_self]
  · rw [dictGet_dictSet_ne _ _ _ _ (by decide), dictGet_dictSet_ne _ _ _ _ (by decide),
        dictGet_dictSet_self]
  · rw [dictGet_dictSet_ne _ _ _ _ (by decide), dictGet_dictSet_self]
  · rw [dictGet_dictSet_self]
  · intro k hk hv hf hc
    rw [dictGet_dictSet_ne _ _ _ _ hc, dictGet_dictSet_ne _ _ _ _ hf,
        dictGet_dictSet_ne _ _ _ _ hv, dictGet_dictSet_ne _ _ _ _ hk]

/-- Witness for C7: at a concrete client, a caller-supplied `key` entry is
overridden by the injected public key, and a caller-supplied `foo` entry
passes through unchanged. -/
theorem C7_param_merging_witness :
    dictGet ((CoinPayments.init "pub" "priv" "").rates_params
      [("key", Value.str "attacker"), ("foo", Value.str "x")]) "key" =
      some (Value.str "pub") ∧
    dictGet ((CoinPayments.init "pub" "priv" "").rates_params
      [("key", Value.str "attacker"), ("foo", Value.str "x")]) "foo" =
      dictGet [("key", Value.str "attacker"), ("foo", Value.str "x")] "foo" :=
  ⟨(C7_param_merging (CoinPayments.init "pub" "priv" "")
      [("key", Value.str "attacker"), ("foo", Value.str "x")]).1,
   (C7_param_merging (CoinPayments.init "pub" "priv" "")
      [("key", Value.str "attacker"), ("foo", Value.str "x")]).2.2.2.2 "foo"
      (by decide) (by decide) (by decide) (by decide)⟩

/-- Claim C8: exactly the create-transaction and get-callback-address
operations inject the configured callback URL as `ipn_url`, and only when
one was set (non-empty) at construction; when set it replaces any
caller-supplied `ipn_url`, when unset the caller's `ipn_url` passes
through, and none of the fourteen other operations ever touches `ipn_url`. -/
theorem C8_ipn_url_injection (c : CoinPayments) (params : List (String × Value)) :
    (c.ipn_url ≠ "" →
      dictGet (c.create_transaction_params params) "ipn_url" = some (Value.str c.ipn_url)) ∧
    (c.ipn_url ≠ "" →
      dictGet (c.get_callback_address_params params) "ipn_url" = some (Value.str c.ipn_url)) ∧
    (c.ipn_url = "" →
      dictGet (c.create_transaction_params params) "ipn_url" = dictGet params "ipn_url") ∧
    (c.ipn_url = "" →
      dictGet (c.get_callback_address_params params) "ipn_url" = dictGet params "ipn_url") ∧
    dictGet (c.get_basic_info_params params) "ipn_url" = dictGet params "ipn_url" ∧
    dictGet (c.rates_params params) "ipn_url" = dictGet params "ipn_url" ∧
    dictGet (c.balances_params params) "ipn_url" = dictGet params "ipn_url" ∧
    dictGet (c.get_deposit_address_params params) "ipn_url" = dictGet params "ipn_url" ∧
    dictGet (c.create_transfer_params params) "ipn_url" = dictGet params "ipn_url" ∧
    dictGet (c.create_withdrawal_params params) "ipn_url" = dictGet params "ipn_url" ∧
    dictGet (c.convert_coins_params params) "ipn_url" = dictGet params "ipn_url" ∧
    dictGet (c.get_conversion_limits_params params) "ipn_url" = dictGet params "ipn_url" ∧
    dictGet (c.get_withdrawal_history_params params) "ipn_url" = dictGet params "ipn_url" ∧
    dictGet (c.get_withdrawal_info_params params) "ipn_url" = dictGet params "ipn_url" ∧
    dictGet (c.get_conversion_info_params params) "ipn_url" = dictGet params "ipn_url" ∧
    dictGet (c.get_tx_info_params params) "ipn_url" = dictGet params "ipn_url" ∧
    dictGet (c.get_tx_info_multi_params params) "ipn_url" = dictGet params "ipn_url" ∧
    dictGet (c.get_tx_list_params params) "ipn_url" = dictGet params "ipn_url" := by
  refine ⟨?_, ?_, ?_, ?_, ?_, ?_, ?_, ?_, ?_, ?_, ?_, ?_, ?_, ?_, ?_, ?_, ?_, ?_⟩
  · intro h
    unfold CoinPayments.create_transaction_params
    rw [dictGet_dictSet_ne _ _ _ _ (by decide), if_pos h, dictGet_dictSet_self]
  · intro h
    unfold CoinPayments.get_callback_address_params
    rw [dictGet_dictSet_ne _ _ _ _ (by decide), if_pos h, dictGet_dictSet_self]
  · intro h
    unfold CoinPayments.create_transaction_params
    rw [dictGet_dictSet_ne _ _ _ _ (by decide), if_neg (not_ne_iff.mpr h),
        dictGet_package_ipn_url]
  · intro h
    unfold CoinPayments.get_callback_address_params
    rw [dictGet_dictSet_ne _ _ _ _ (by decide), if_neg (not_ne_iff.mpr h),
        dictGet_package_ipn_url]
  · exact dictGet_plain_op_ipn_url c "get_basic_info" params
  · exact dictGet_plain_op_ipn_url c "rates" params
  · exact dictGet_plain_op_ipn_url c "balances" params
  · exact dictGet_plain_op_ipn_url c "get_deposit_address" params
  · exact dictGet_plain_op_ipn_url c "create_transfer" params
  · exact dictGet_plain_op_ipn_url c "create_withdrawal" params
  · exact dictGet_plain_op_ipn_url c "convert" params
  · exact dictGet_plain_op_ipn_url c "convert_limits" params
  · exact dictGet_plain_op_ipn_url c "get_withdrawal_history" params
  · exact dictGet_plain_op_ipn_url c "get_withdrawal_info" params
  · exact dictGet_plain_op_ipn_url c "get_conversion_info" params
  · exact dictGet_plain_op_ipn_url c "get_tx_info" params
  · exact dictGet_plain_op_ipn_url c "get_tx_info_multi" params
  · exact dictGet_plain_op_ipn_url c "get_tx_ids" params

/-- Witness for C8: with a configured callback URL, create-transaction
replaces a caller-supplied `ipn_url` by the configured one. -/
theorem C8_ipn_url_injection_witness :
    dictGet ((CoinPayments.init "p" "s" "https://example.com").create_transaction_params
      [("ipn_url", Value.str "old")]) "ipn_url" =
      some (Value.str "https://example.com") :=
  (C8_ipn_url_injection (CoinPayments.init "p" "s" "https://example.com")
    [("ipn_url", Value.str "old")]).1 (by decide)

/-- Claim C9: whenever the one `urlopen` call yields any HTTP response —
a normal response or an `HTTPError` carrying a body — `request` reads the
body, hands it to `json.loads` and returns the parsed value without
raising; only a transport-level failure to obtain any body is surfaced as
an error, and the single transport invocation is never retried. -/
theorem C9_response_passthrough (α : Type) (loads : String → α)
    (c : CoinPayments) (params : List (String × Value))
    (transport : HttpRequest → UrlopenOutcome) (req : HttpRequest)
    (hreq : c.buildRequest "post" params = some req) :
    (∀ body, transport req = UrlopenOutcome.ok body →
      c.request loads transport "post" params = some (Except.ok (loads body))) ∧
    (∀ body, transport req = UrlopenOutcome.httpError body →
      c.request loads transport "post" params = some (Except.ok (loads body))) ∧
    (∀ err, transport req = UrlopenOutcome.fatal err →
      c.request loads transport "post" params = some (Except.error err)) := by
  refine ⟨?_, ?_, ?_⟩ <;> intro b hb <;>
    simp [CoinPayments.request, hreq, handleOutcome, hb]

/-- Witness for C9: a concrete client whose transport answers with an
`HTTPError` carrying the body `x` still gets `x` parsed and returned. -/
theorem C9_response_passthrough_witness :
    (CoinPayments.init "p" "s" "").request (fun s => s)
      (fun _ => UrlopenOutcome.httpError "x") "post" [("foo", Value.str "bar")] =
      some (Except.ok "x") :=
  (C9_response_passthrough String (fun s => s) (CoinPayments.init "p" "s" "")
    [("foo", Value.str "bar")] (fun _ => UrlopenOutcome.httpError "x")
    { url := "https://www.coinpayments.net/api.php"
      data := some (strBytes (urlencode [("foo", Value.str "bar")]))
      headers :=
        [("Hmac", calculate_hmac "s" [("foo", Value.str "bar")]),
         ("Content-type", "application/x-www-form-urlencoded")] }
    rfl).2.1 "x" rfl

/-- Claim C10: for every request-method string other than the exact
lowercase `"get"` and `"post"` (the uppercase spellings included), no
request object is ever constructed and the dispatch returns nothing to the
transport — modelling the `UnboundLocalError` raised at `urlopen(req)`
before any network I/O — whatever the transport would have answered. -/
theorem C10_invalid_method (α : Type) (loads : String → α)
    (c : CoinPayments) (params : List (String × Value))
    (transport : HttpRequest → UrlopenOutcome) (request_method : String)
    (h1 : request_method ≠ "get") (h2 : request_method ≠ "post") :
    c.buildRequest request_method params = none ∧
    c.request loads transport request_method params = none := by
  have hb : c.buildRequest request_method params = none := by
    unfold CoinPayments.buildRequest
    rw [if_neg (by simpa using h1), if_neg (by simpa using h2)]
  exact ⟨hb, by simp [CoinPayments.request, hb]⟩

/-- Witness for C10: the uppercase method string `GET` constructs no
request and dispatches nothing. -/
theorem C10_invalid_method_witness :
    (CoinPayments.init "p" "s" "").buildRequest "GET" [] = none ∧
    (CoinPayments.init "p" "s" "").request (fun s => s)
      (fun _ => UrlopenOutcome.ok "x") "GET" [] = none :=
  C10_invalid_method String (fun s => s) (CoinPayments.init "p" "s" "") []
    (fun _ => UrlopenOutcome.ok "x") "GET" (by decide) (by decide)

end CoinPaymentsSpec
